import Mathlib

/- Verification development for the MonitorNap dimming core.

   This file gives a shallow embedding of the per-monitor dimming engine of
   monitor_controller.py (class MonitorController) and of the pause/awake
   logic of monitornap.py (MainWindow.pause_dimming / _pause_timeout /
   on_awake_toggled), and proves or refutes the specification claims about
   them.

   Modelling conventions:
   * Python ints are Int, Python floats are Rat (the claims under check do
     not depend on binary floating-point drift; ties of round() are modelled
     with Python's half-to-even rule).
   * The Qt hardware fade QTimer is a Bool flag `fade_timer_active` on the
     controller state; a tick of that timer runs `_do_fade`.
   * The overlay fade is a chain of `QTimer.singleShot` callbacks, each
     closing over its own (current, target, step, delay) arguments; pending
     callbacks are modelled as a list `pendingOverlay` of `OverlayStep`
     records, and firing one removes it from the list and runs
     `_fade_overlay_step` with its captured arguments.
   * Hardware access (monitorcontrol) is an environment `HwEnv`: the number
     of enumerated DDC monitors, the result of a luminance probe per index
     (`none` models a raised exception, which the code catches), and a flag
     saying whether in-fade luminance reads succeed.  The physical luminance
     of the bound monitor is the state field `hw_lum`; `set_luminance`
     writes it.  Exceptions are caught everywhere in the source, so every
     modelled operation is total.
-/

namespace MonitorNap

/-- Python round() on rationals: banker's rounding, half to even. -/
def pyRound (q : Rat) : Int :=
  let f : Int := q.num.fdiv (q.den : Int)
  let r : Rat := q - (f : Rat)
  if r < 1/2 then f
  else if 1/2 < r then f + 1
  else if f % 2 = 0 then f else f + 1

/-- Python int() on rationals: truncation toward zero. -/
def pyInt (q : Rat) : Int := q.num.tdiv (q.den : Int)

/-- Per-monitor configuration dictionary (monitor_cfg in the source). -/
structure MonitorCfg where
  monitor_index : Int
  display_index : Int
  ddc_index : Int
  enable_software_dimming : Bool
  enable_hardware_dimming : Bool
  software_dimming_level : Rat
  hardware_dimming_level : Int
deriving DecidableEq, Repr

/-- Global configuration dictionary (global_cfg in the source). -/
structure GlobalCfg where
  awake_mode : Bool
  inactivity_limit : Rat
  overlay_fade_steps : Int
  overlay_fade_time : Rat
deriving DecidableEq, Repr

/-- Hardware environment: DDC enumeration and luminance-probe behaviour.
    `lum i = none` models get_luminance raising on monitor `i` at
    init/remap time; `read_ok` says whether the in-fade luminance read in
    fade_hardware succeeds. -/
structure HwEnv where
  numMonitors : Nat
  lum : Nat → Option Int
  read_ok : Bool

/-- One pending `QTimer.singleShot` callback of the overlay fade chain,
    holding the arguments the closure in _fade_overlay_step captured. -/
structure OverlayStep where
  current : Rat
  target : Rat
  step_opacity : Rat
  delay : Int
deriving DecidableEq, Repr

/-- State of one MonitorController (plus the physical luminance of the
    monitor it drives and the pending overlay-fade callbacks). -/
structure MCState where
  cfg : MonitorCfg
  is_dimmed : Bool
  restore_in_progress : Bool
  last_active : Rat
  display_index : Int
  ddc_index : Int
  monitorcontrol_monitor : Option Nat
  original_brightness : Option Int
  overlay_opacity : Rat
  overlay_visible : Bool
  hw_lum : Int
  fade_timer_active : Bool
  current_fade_step : Int
  fade_steps : Int
  fade_start : Int
  fade_target : Int
  fade_step_size : Rat
  fade_interval_ms : Int
  pendingOverlay : List OverlayStep
deriving DecidableEq, Repr

/-- MonitorController.set_brightness: write luminance via DDC/CI; a no-op
    when no DDC monitor is bound (write failures are caught and logged in
    the source, leaving the luminance unchanged; we model the success
    path). -/
def set_brightness (v : Int) (s : MCState) : MCState :=
  if s.monitorcontrol_monitor.isSome then { s with hw_lum := v } else s

/-- MonitorController.immediate_restore: stop any active fade timer, set
    hardware brightness back to the original, hide the overlay, snap
    opacity to 0 and clear is_dimmed. -/
def immediate_restore (s : MCState) : MCState :=
  let s1 := { s with fade_timer_active := false }
  let s2 :=
    match s.original_brightness with
    | some ob => if s.monitorcontrol_monitor.isSome then set_brightness ob s1 else s1
    | none => s1
  { s2 with overlay_visible := false, overlay_opacity := 0, is_dimmed := false }

/-- MonitorController.restore_dim: clear is_dimmed and immediately
    restore. -/
def restore_dim (s : MCState) : MCState :=
  immediate_restore { s with is_dimmed := false }

/-- Current-luminance read performed at the top of fade_hardware: succeeds
    only when a DDC monitor is bound and the environment lets the read
    through. -/
def hwReadCurrent (env : HwEnv) (s : MCState) : Option Int :=
  if s.monitorcontrol_monitor.isSome && env.read_ok then some s.hw_lum else none

/-- Starting brightness chosen by fade_hardware: the current luminance when
    readable, else the last known original_brightness, else 100. -/
def hwFadeStart (env : HwEnv) (s : MCState) : Int :=
  match hwReadCurrent env s with
  | some v => v
  | none =>
    match s.original_brightness with
    | some ob => ob
    | none => 100

/-- Downward fade target computed by fade_hardware:
    target = clamp (round (start * (1 - level/100))) to [0,100], with the
    configured level itself clamped to [0,100] first. -/
def hwFadeTargetDown (cfg : MonitorCfg) (start : Int) : Int :=
  let level := max 0 (min 100 cfg.hardware_dimming_level)
  max 0 (min 100 (pyRound ((start : Rat) * (1 - (level : Rat) / 100))))

/-- MonitorController.fade_hardware: guarded by restore_in_progress; sets
    up the fade fields and starts the fade timer. -/
def fade_hardware (g : GlobalCfg) (env : HwEnv) (down : Bool) (s : MCState) : MCState :=
  if s.restore_in_progress then s
  else
    let s1 := { s with restore_in_progress := true }
    let start := hwFadeStart env s
    let target :=
      if down then hwFadeTargetDown s.cfg start
      else
        match s.original_brightness with
        | some ob => ob
        | none => start
    let duration0 := g.overlay_fade_time
    let steps0 := g.overlay_fade_steps
    let duration := if down then duration0 else max (1/100) (duration0 * (1/20))
    let steps1 := if down then steps0 else min steps0 3
    let steps := if steps1 ≤ 0 then 1 else steps1
    { s1 with
      fade_step_size := ((target : Rat) - (start : Rat)) / (steps : Rat)
      fade_interval_ms := pyInt (duration / (steps : Rat) * 1000)
      current_fade_step := 0
      fade_steps := steps
      fade_start := start
      fade_target := target
      fade_timer_active := true }

/-- MonitorController._do_fade: one tick of the hardware fade timer. -/
def do_fade (s : MCState) : MCState :=
  let k := s.current_fade_step + 1
  let nv : Rat := (s.fade_start : Rat) + s.fade_step_size * (k : Rat)
  if (0 < s.fade_step_size ∧ (s.fade_target : Rat) ≤ nv) ∨
     (s.fade_step_size < 0 ∧ nv ≤ (s.fade_target : Rat)) ∨
     s.fade_steps ≤ k then
    let s1 := set_brightness s.fade_target { s with current_fade_step := k }
    { s1 with fade_timer_active := false, restore_in_progress := false }
  else
    set_brightness (pyInt nv) { s with current_fade_step := k }

/-- MonitorController._fade_overlay_step: apply one overlay fade step and,
    unless within epsilon of the target, schedule the next step as a
    singleShot (append to the pending list). -/
def fade_overlay_step (c t so : Rat) (d : Int) (s : MCState) : MCState :=
  let nv0 := c + so
  let nv := if (0 < so ∧ t ≤ nv0) ∨ (so < 0 ∧ nv0 ≤ t) then t else nv0
  let s1 := { s with overlay_opacity := nv }
  if 1/100 < |nv - t| then
    { s1 with pendingOverlay := s1.pendingOverlay ++ [⟨nv, t, so, d⟩] }
  else if |t| < 1/100 then { s1 with overlay_visible := false } else s1

/-- MonitorController.fade_overlay: compute step size and delay and run the
    first step synchronously. -/
def fade_overlay (g : GlobalCfg) (t : Rat) (s : MCState) : MCState :=
  let current := s.overlay_opacity
  let steps1 := if g.overlay_fade_steps ≤ 0 then 1 else g.overlay_fade_steps
  let speedup := t < current
  let total := if speedup then max (1/100) (g.overlay_fade_time * (1/20)) else g.overlay_fade_time
  let steps := if speedup then min steps1 3 else steps1
  let so := (t - current) / (steps : Rat)
  let d := max 1 (pyInt (total / (steps : Rat) * 1000))
  fade_overlay_step current t so d s

/-- Target opacity used by dim() for the software channel:
    software_dimming_level clamped to [0,1]. -/
def dimOverlayTarget (cfg : MonitorCfg) : Rat :=
  max 0 (min 1 cfg.software_dimming_level)

/-- MonitorController.dim: no-op when already dimmed; otherwise set
    is_dimmed, start the overlay fade when software dimming is enabled, and
    start the hardware fade when hardware dimming is enabled and a baseline
    brightness is known. -/
def dim (g : GlobalCfg) (env : HwEnv) (s : MCState) : MCState :=
  if s.is_dimmed then s
  else
    let s1 := { s with is_dimmed := true }
    let s2 :=
      if s1.cfg.enable_software_dimming then
        fade_overlay g (dimOverlayTarget s1.cfg) { s1 with overlay_visible := true }
      else s1
    if s2.cfg.enable_hardware_dimming ∧ s2.original_brightness.isSome then
      fade_hardware g env true s2
    else s2

/-- MonitorController.check_inactivity: one tick of the 2-second scheduler
    timer.  `activeSignal` is the result of is_monitor_active() and `now`
    is time.time(). -/
def check_inactivity (g : GlobalCfg) (env : HwEnv) (activeSignal : Bool) (now : Rat)
    (s : MCState) : MCState :=
  if g.awake_mode then
    if s.is_dimmed then restore_dim s else s
  else if activeSignal then
    let s1 := { s with last_active := now }
    if s1.is_dimmed then restore_dim s1 else s1
  else if g.inactivity_limit ≤ now - s.last_active ∧ s.is_dimmed = false then
    dim g env s
  else s

/-- Controller state as built by MonitorController.__init__ before
    init_monitor runs: nothing dimmed, overlay hidden at opacity 0, no DDC
    monitor bound yet.  `hwLum` is the physical luminance of the monitor
    the controller will drive. -/
def initState (cfg : MonitorCfg) (now : Rat) (hwLum : Int) : MCState :=
  { cfg := cfg
    is_dimmed := false
    restore_in_progress := false
    last_active := now
    display_index := cfg.display_index
    ddc_index := cfg.ddc_index
    monitorcontrol_monitor := none
    original_brightness := none
    overlay_opacity := 0
    overlay_visible := false
    hw_lum := hwLum
    fade_timer_active := false
    current_fade_step := 0
    fade_steps := 0
    fade_start := 0
    fade_target := 0
    fade_step_size := 0
    fade_interval_ms := 0
    pendingOverlay := [] }

/-- MonitorController.init_monitor (DDC part): bind the DDC monitor when
    ddc_index is in range and probe its brightness; out of range leaves the
    hardware channel unbound. -/
def init_monitor (env : HwEnv) (s : MCState) : MCState :=
  if 0 ≤ s.ddc_index ∧ s.ddc_index < (env.numMonitors : Int) then
    { s with
      monitorcontrol_monitor := some s.ddc_index.toNat
      original_brightness := env.lum s.ddc_index.toNat }
  else
    { s with monitorcontrol_monitor := none }

/-- Full construction of a MonitorController: __init__ followed by
    init_monitor. -/
def mkController (cfg : MonitorCfg) (env : HwEnv) (now : Rat) (hwLum : Int) : MCState :=
  init_monitor env (initState cfg now hwLum)

/-- MonitorController.set_indices: clamp both indices up to 0, drop the old
    DDC binding and baseline, and rebind/probe when the clamped ddc index
    is within the current enumeration. -/
def set_indices (env : HwEnv) (di ddci : Int) (s : MCState) : MCState :=
  let s1 := { s with
    display_index := max 0 di
    ddc_index := max 0 ddci
    monitorcontrol_monitor := none
    original_brightness := none }
  if 0 ≤ s1.ddc_index ∧ s1.ddc_index < (env.numMonitors : Int) then
    { s1 with
      monitorcontrol_monitor := some s1.ddc_index.toNat
      original_brightness := env.lum s1.ddc_index.toNat }
  else s1

/-- State reached inside dim() just before the overlay fade starts:
    is_dimmed set and the overlay shown. -/
def dimmedShown (s : MCState) : MCState :=
  { s with is_dimmed := true, overlay_visible := true }

/-- MonitorController.identify (overlay part): show the overlay and fade to
    the clamped flash opacity. -/
def identifyFade (g : GlobalCfg) (opacity : Rat) (s : MCState) : MCState :=
  fade_overlay g (max 0 (min 1 opacity)) { s with overlay_visible := true }

/-- Fire the i-th pending overlay singleShot callback: remove it from the
    queue and run _fade_overlay_step with its captured arguments.  A no-op
    when no such callback is pending. -/
def fireOverlay (i : Nat) (s : MCState) : MCState :=
  match s.pendingOverlay.get? i with
  | some st =>
      fade_overlay_step st.current st.target st.step_opacity st.delay
        { s with pendingOverlay := s.pendingOverlay.eraseIdx i }
  | none => s

/-- Run a list of pending-overlay-callback firings in order. -/
def runFires (l : List Nat) (s : MCState) : MCState :=
  l.foldl (fun st i => fireOverlay i st) s

/-- Events that can reach a MonitorController from the outside: the
    2-second inactivity timer tick, a hardware fade-timer tick, the firing
    of a pending overlay singleShot, and the public entry points called by
    the UI/tray layer (dim, restore_dim, identify, set_indices). -/
inductive Ev where
  | tick (activeSignal : Bool) (now : Rat)
  | hwTick
  | ovFire (i : Nat)
  | callDim
  | callRestore
  | callIdentify (opacity : Rat)
  | callSetIndices (di ddci : Int)

/-- One event of the single-threaded event loop applied to a controller
    state.  A hardware fade tick only does anything while its timer is
    active. -/
def step (g : GlobalCfg) (env : HwEnv) : Ev → MCState → MCState
  | .tick a now, s => check_inactivity g env a now s
  | .hwTick, s => if s.fade_timer_active then do_fade s else s
  | .ovFire i, s => fireOverlay i s
  | .callDim, s => dim g env s
  | .callRestore, s => restore_dim s
  | .callIdentify op, s => identifyFade g op s
  | .callSetIndices di ddci, s => set_indices env di ddci s

/-- Run a list of events in order. -/
def run (g : GlobalCfg) (env : HwEnv) (es : List Ev) (s : MCState) : MCState :=
  es.foldl (fun st e => step g env e st) s

/-- The hardware channel is wedged: an interrupted fade left
    restore_in_progress set while its timer is no longer running. -/
def HwStuck (s : MCState) : Prop :=
  s.restore_in_progress = true ∧ s.fade_timer_active = false

/-- Brightness values emitted by successive hardware fade ticks until the
    fade timer stops, with fuel `n`.  Each emitted value is the luminance
    written by set_brightness in that _do_fade step. -/
def fadeEmits : Nat → MCState → List Int
  | 0, _ => []
  | Nat.succ n, s =>
    if s.fade_timer_active then (do_fade s).hw_lum :: fadeEmits n (do_fade s) else []

/-- Two controller states that agree on everything except the overlay
    fields (opacity, visibility, pending callbacks). -/
structure SameCore (s s' : MCState) : Prop where
  cfg : s'.cfg = s.cfg
  dimmed : s'.is_dimmed = s.is_dimmed
  rip : s'.restore_in_progress = s.restore_in_progress
  la : s'.last_active = s.last_active
  di : s'.display_index = s.display_index
  ddci : s'.ddc_index = s.ddc_index
  mon : s'.monitorcontrol_monitor = s.monitorcontrol_monitor
  ob : s'.original_brightness = s.original_brightness
  lum : s'.hw_lum = s.hw_lum
  timer : s'.fade_timer_active = s.fade_timer_active
  cstep : s'.current_fade_step = s.current_fade_step
  steps : s'.fade_steps = s.fade_steps
  fstart : s'.fade_start = s.fade_start
  ftarget : s'.fade_target = s.fade_target
  fss : s'.fade_step_size = s.fade_step_size
  fint : s'.fade_interval_ms = s.fade_interval_ms

/- Concrete scenario used by several claims: a software-only monitor (no
   DDC monitor enumerated), software dimming level 0.5, two fade steps over
   one second. -/

/-- Scenario configuration: software dimming only, level 0.5. -/
def swCfg : MonitorCfg :=
  { monitor_index := 0, display_index := 0, ddc_index := 0,
    enable_software_dimming := true, enable_hardware_dimming := false,
    software_dimming_level := 1/2, hardware_dimming_level := 30 }

/-- Scenario global config: 2 fade steps over 1 second, awake mode off. -/
def gTwo : GlobalCfg :=
  { awake_mode := false, inactivity_limit := 10,
    overlay_fade_steps := 2, overlay_fade_time := 1 }

/-- Scenario hardware environment with no DDC monitor enumerated. -/
def envNone : HwEnv := { numMonitors := 0, lum := fun _ => none, read_ok := true }

/-- Scenario controller: software-only monitor, freshly initialized. -/
def sSW : MCState := mkController swCfg envNone 0 100

/-- Scenario configuration for the hardware fade of claim C6: hardware
    dimming only, at level 100 so the fade target is 0. -/
def hwCfg : MonitorCfg :=
  { monitor_index := 0, display_index := 0, ddc_index := 0,
    enable_software_dimming := false, enable_hardware_dimming := true,
    software_dimming_level := 1/2, hardware_dimming_level := 100 }

/-- Scenario global config with 10 fade steps over 1.0 s. -/
def gTen : GlobalCfg :=
  { awake_mode := false, inactivity_limit := 10,
    overlay_fade_steps := 10, overlay_fade_time := 1 }

/-- Scenario hardware environment: one DDC monitor at luminance 100,
    readable. -/
def envOne : HwEnv := { numMonitors := 1, lum := fun _ => some 100, read_ok := true }

/-- Scenario controller bound to the single DDC monitor. -/
def sHW : MCState := mkController hwCfg envOne 0 100

/-- Scenario configuration with both channels enabled: software level 0.5,
    hardware level 30. -/
def bothCfg : MonitorCfg :=
  { monitor_index := 0, display_index := 0, ddc_index := 0,
    enable_software_dimming := true, enable_hardware_dimming := true,
    software_dimming_level := 1/2, hardware_dimming_level := 30 }

/-- Scenario controller with both channels, bound to the DDC monitor at
    luminance 100. -/
def sBoth : MCState := mkController bothCfg envOne 0 100

/-- Scenario hardware environment with two DDC monitors at luminance 50. -/
def env2 : HwEnv := { numMonitors := 2, lum := fun _ => some 50, read_ok := true }

/-- Scenario: the hardware fade started by a dim transition on sHW, with
    fade_start = 100, fade_target = 0, fade_steps = 10. -/
def sFade : MCState := fade_hardware gTen envOne true sHW

namespace App

/- Embedding of the pause/awake-mode coordination of monitornap.py
   (MainWindow.pause_dimming, MainWindow._pause_timeout,
   MainWindow.on_awake_toggled).  `pauseTimer` models the single-shot
   QTimer `_pause_timer`: `some e` means the timer is active and will fire
   at absolute time `e`; when it fires it is no longer active.
   `lastActive` stands for the controllers' last_active timestamps, which
   on_awake_toggled(False) resets to the current time. -/

/-- State of the override coordinator in the main window. -/
structure AppState where
  awake_mode : Bool
  pauseTimer : Option Rat
  lastActive : Rat
deriving DecidableEq, Repr

/-- MainWindow.on_awake_toggled: turning awake mode off stops any active
    pause timer and resets every controller's last_active to now. -/
def on_awake_toggled (now : Rat) (state : Bool) (s : AppState) : AppState :=
  let s1 := if state = false ∧ s.pauseTimer.isSome then { s with pauseTimer := none } else s
  let s2 := { s1 with awake_mode := state }
  if state then s2 else { s2 with lastActive := now }

/-- MainWindow.pause_dimming: stop any existing pause timer, turn awake
    mode on if it is off, and start a single-shot timer for
    max(1, minutes) minutes. -/
def pause_dimming (now : Rat) (minutes : Int) (s : AppState) : AppState :=
  let s1 := { s with pauseTimer := none }
  let s2 := if s1.awake_mode = false then on_awake_toggled now true s1 else s1
  { s2 with pauseTimer := some (now + ((max 1 minutes : Int) : Rat) * 60) }

/-- MainWindow._pause_timeout: runs when the pause timer fires (so the
    single-shot timer is no longer active) and turns awake mode off. -/
def pause_timeout (now : Rat) (s : AppState) : AppState :=
  on_awake_toggled now false { s with pauseTimer := none }

/-- Whether the pause timer can still fire at time `now`. -/
def expiryEnabled (now : Rat) (s : AppState) : Bool :=
  match s.pauseTimer with
  | some e => decide (e ≤ now)
  | none => false

end App

/- ------------------------------------------------------------------ -/
/- Helper lemmas.                                                      -/
/- ------------------------------------------------------------------ -/

lemma sameCore_refl (s : MCState) : SameCore s s :=
  ⟨rfl, rfl, rfl, rfl, rfl, rfl, rfl, rfl, rfl, rfl, rfl, rfl, rfl, rfl, rfl, rfl⟩

lemma sameCore_trans {s s' s'' : MCState} (h1 : SameCore s s') (h2 : SameCore s' s'') :
    SameCore s s'' :=
  ⟨h2.cfg.trans h1.cfg, h2.dimmed.trans h1.dimmed, h2.rip.trans h1.rip,
   h2.la.trans h1.la, h2.di.trans h1.di, h2.ddci.trans h1.ddci,
   h2.mon.trans h1.mon, h2.ob.trans h1.ob, h2.lum.trans h1.lum,
   h2.timer.trans h1.timer, h2.cstep.trans h1.cstep, h2.steps.trans h1.steps,
   h2.fstart.trans h1.fstart, h2.ftarget.trans h1.ftarget, h2.fss.trans h1.fss,
   h2.fint.trans h1.fint⟩

lemma fade_overlay_step_core (c t so : Rat) (d : Int) (s : MCState) :
    SameCore s (fade_overlay_step c t so d s) := by
  simp only [fade_overlay_step]
  split_ifs <;>
    exact ⟨rfl, rfl, rfl, rfl, rfl, rfl, rfl, rfl, rfl, rfl, rfl, rfl, rfl, rfl, rfl, rfl⟩

lemma fade_overlay_core (g : GlobalCfg) (t : Rat) (s : MCState) :
    SameCore s (fade_overlay g t s) := by
  simp only [fade_overlay]
  exact fade_overlay_step_core _ _ _ _ _

lemma identifyFade_core_dimmed (g : GlobalCfg) (op : Rat) (s : MCState) :
    (identifyFade g op s).is_dimmed = s.is_dimmed ∧
    (identifyFade g op s).restore_in_progress = s.restore_in_progress ∧
    (identifyFade g op s).fade_timer_active = s.fade_timer_active := by
  have h := fade_overlay_core g (max 0 (min 1 op)) { s with overlay_visible := true }
  exact ⟨h.dimmed, h.rip, h.timer⟩

lemma fireOverlay_core (i : Nat) (s : MCState) : SameCore s (fireOverlay i s) := by
  unfold fireOverlay
  cases h : s.pendingOverlay.get? i with
  | none => exact sameCore_refl s
  | some st =>
      have h1 : SameCore s { s with pendingOverlay := s.pendingOverlay.eraseIdx i } :=
        ⟨rfl, rfl, rfl, rfl, rfl, rfl, rfl, rfl, rfl, rfl, rfl, rfl, rfl, rfl, rfl, rfl⟩
      exact sameCore_trans h1
        (fade_overlay_step_core st.current st.target st.step_opacity st.delay
          { s with pendingOverlay := s.pendingOverlay.eraseIdx i })

lemma runFires_core (l : List Nat) (s : MCState) : SameCore s (runFires l s) := by
  induction l generalizing s with
  | nil => exact sameCore_refl s
  | cons i l ih =>
      exact sameCore_trans (fireOverlay_core i s) (ih (fireOverlay i s))

lemma fade_overlay_step_hidden (c t so : Rat) (d : Int) (s : MCState)
    (h : s.overlay_visible = false) :
    (fade_overlay_step c t so d s).overlay_visible = false := by
  simp only [fade_overlay_step]
  split_ifs <;> simp [h]

lemma fireOverlay_hidden (i : Nat) (s : MCState) (h : s.overlay_visible = false) :
    (fireOverlay i s).overlay_visible = false := by
  unfold fireOverlay
  cases hp : s.pendingOverlay.get? i with
  | none => exact h
  | some st =>
      exact fade_overlay_step_hidden _ _ _ _ _ h

lemma runFires_hidden (l : List Nat) (s : MCState) (h : s.overlay_visible = false) :
    (runFires l s).overlay_visible = false := by
  induction l generalizing s with
  | nil => exact h
  | cons i l ih => exact ih (fireOverlay i s) (fireOverlay_hidden i s h)

lemma fade_overlay_step_pending_mono (c t so : Rat) (d : Int) (s : MCState)
    (os : OverlayStep) (h : os ∈ s.pendingOverlay) :
    os ∈ (fade_overlay_step c t so d s).pendingOverlay := by
  simp only [fade_overlay_step]
  split_ifs <;> simp [h]

lemma fade_overlay_pending_mono (g : GlobalCfg) (t : Rat) (s : MCState)
    (os : OverlayStep) (h : os ∈ s.pendingOverlay) :
    os ∈ (fade_overlay g t s).pendingOverlay := by
  simp only [fade_overlay]
  exact fade_overlay_step_pending_mono _ _ _ _ _ _ h

lemma fade_hardware_pres (g : GlobalCfg) (env : HwEnv) (down : Bool) (s : MCState) :
    (fade_hardware g env down s).cfg = s.cfg ∧
    (fade_hardware g env down s).is_dimmed = s.is_dimmed ∧
    (fade_hardware g env down s).last_active = s.last_active ∧
    (fade_hardware g env down s).monitorcontrol_monitor = s.monitorcontrol_monitor ∧
    (fade_hardware g env down s).original_brightness = s.original_brightness ∧
    (fade_hardware g env down s).hw_lum = s.hw_lum ∧
    (fade_hardware g env down s).overlay_opacity = s.overlay_opacity ∧
    (fade_hardware g env down s).overlay_visible = s.overlay_visible ∧
    (fade_hardware g env down s).pendingOverlay = s.pendingOverlay ∧
    (fade_hardware g env down s).display_index = s.display_index ∧
    (fade_hardware g env down s).ddc_index = s.ddc_index := by
  unfold fade_hardware
  split <;> exact ⟨rfl, rfl, rfl, rfl, rfl, rfl, rfl, rfl, rfl, rfl, rfl⟩

lemma fade_hardware_of_rip (g : GlobalCfg) (env : HwEnv) (down : Bool) (s : MCState)
    (h : s.restore_in_progress = true) : fade_hardware g env down s = s := by
  unfold fade_hardware
  simp [h]

lemma immediate_restore_basic (s : MCState) :
    (immediate_restore s).is_dimmed = false ∧
    (immediate_restore s).overlay_visible = false ∧
    (immediate_restore s).overlay_opacity = 0 ∧
    (immediate_restore s).fade_timer_active = false ∧
    (immediate_restore s).restore_in_progress = s.restore_in_progress ∧
    (immediate_restore s).pendingOverlay = s.pendingOverlay ∧
    (immediate_restore s).last_active = s.last_active ∧
    (immediate_restore s).monitorcontrol_monitor = s.monitorcontrol_monitor ∧
    (immediate_restore s).original_brightness = s.original_brightness ∧
    (immediate_restore s).cfg = s.cfg := by
  unfold immediate_restore set_brightness
  cases s.original_brightness <;> split_ifs <;> simp_all

lemma immediate_restore_lum (s : MCState) (ob : Int)
    (hm : s.monitorcontrol_monitor.isSome = true) (hb : s.original_brightness = some ob) :
    (immediate_restore s).hw_lum = ob := by
  unfold immediate_restore set_brightness
  rw [hb]
  simp [hm]

lemma restore_dim_basic (s : MCState) :
    (restore_dim s).is_dimmed = false ∧
    (restore_dim s).overlay_visible = false ∧
    (restore_dim s).overlay_opacity = 0 ∧
    (restore_dim s).fade_timer_active = false ∧
    (restore_dim s).restore_in_progress = s.restore_in_progress ∧
    (restore_dim s).pendingOverlay = s.pendingOverlay := by
  unfold restore_dim
  have h := immediate_restore_basic { s with is_dimmed := false }
  exact ⟨h.1, h.2.1, h.2.2.1, h.2.2.2.1, h.2.2.2.2.1, h.2.2.2.2.2.1⟩

lemma restore_dim_lum (s : MCState) (ob : Int)
    (hm : s.monitorcontrol_monitor.isSome = true) (hb : s.original_brightness = some ob) :
    (restore_dim s).hw_lum = ob := by
  unfold restore_dim
  exact immediate_restore_lum _ ob hm hb

lemma dim_of_dimmed (g : GlobalCfg) (env : HwEnv) (s : MCState) (h : s.is_dimmed = true) :
    dim g env s = s := by
  unfold dim
  simp [h]

lemma dim_dimmed (g : GlobalCfg) (env : HwEnv) (s : MCState) :
    (dim g env s).is_dimmed = true := by
  by_cases h : s.is_dimmed = true
  · rw [dim_of_dimmed g env s h]; exact h
  · simp only [dim]
    rw [if_neg h]
    split_ifs
    · rw [(fade_hardware_pres g env true _).2.1,
          (fade_overlay_core g (dimOverlayTarget _) _).dimmed]
    · rw [(fade_overlay_core g (dimOverlayTarget _) _).dimmed]
    · rw [(fade_hardware_pres g env true _).2.1]
    · rfl

lemma set_indices_pres (env : HwEnv) (di ddci : Int) (s : MCState) :
    (set_indices env di ddci s).restore_in_progress = s.restore_in_progress ∧
    (set_indices env di ddci s).fade_timer_active = s.fade_timer_active := by
  simp only [set_indices]
  split_ifs <;> exact ⟨rfl, rfl⟩

lemma restore_dim_stuck (s : MCState) (h : HwStuck s) : HwStuck (restore_dim s) :=
  ⟨by rw [(restore_dim_basic s).2.2.2.2.1]; exact h.1, (restore_dim_basic s).2.2.2.1⟩

lemma dim_stuck (g : GlobalCfg) (env : HwEnv) (s : MCState) (h : HwStuck s) :
    HwStuck (dim g env s) := by
  obtain ⟨h1, h2⟩ := h
  by_cases hd : s.is_dimmed = true
  · rw [dim_of_dimmed g env s hd]; exact ⟨h1, h2⟩
  · simp only [dim]
    rw [if_neg hd]
    split_ifs
    · have hX : (fade_overlay g (dimOverlayTarget s.cfg)
          { s with is_dimmed := true, overlay_visible := true }).restore_in_progress = true := by
        rw [(fade_overlay_core _ _ _).rip]; exact h1
      rw [fade_hardware_of_rip _ _ _ _ hX]
      exact ⟨hX, by rw [(fade_overlay_core _ _ _).timer]; exact h2⟩
    · exact ⟨by rw [(fade_overlay_core _ _ _).rip]; exact h1,
        by rw [(fade_overlay_core _ _ _).timer]; exact h2⟩
    · rw [fade_hardware_of_rip g env true ({ s with is_dimmed := true } : MCState) h1]
      exact ⟨h1, h2⟩
    · exact ⟨h1, h2⟩

lemma check_inactivity_stuck (g : GlobalCfg) (env : HwEnv) (a : Bool) (now : Rat)
    (s : MCState) (h : HwStuck s) : HwStuck (check_inactivity g env a now s) := by
  simp only [check_inactivity]
  split_ifs
  · exact restore_dim_stuck s h
  · exact h
  · exact restore_dim_stuck _ ⟨h.1, h.2⟩
  · exact ⟨h.1, h.2⟩
  · exact dim_stuck g env s h
  · exact h

lemma fireOverlay_stuck (i : Nat) (s : MCState) (h : HwStuck s) :
    HwStuck (fireOverlay i s) :=
  ⟨by rw [(fireOverlay_core i s).rip]; exact h.1,
   by rw [(fireOverlay_core i s).timer]; exact h.2⟩

lemma step_stuck (g : GlobalCfg) (env : HwEnv) (e : Ev) (s : MCState) (h : HwStuck s) :
    HwStuck (step g env e s) := by
  cases e with
  | tick a now => exact check_inactivity_stuck g env a now s h
  | hwTick =>
      simp only [step]
      rw [if_neg (by rw [h.2]; exact Bool.false_ne_true)]
      exact h
  | ovFire i => exact fireOverlay_stuck i s h
  | callDim => exact dim_stuck g env s h
  | callRestore => exact restore_dim_stuck s h
  | callIdentify op =>
      have hp := identifyFade_core_dimmed g op s
      exact ⟨hp.2.1.trans h.1, hp.2.2.trans h.2⟩
  | callSetIndices di ddci =>
      have hp := set_indices_pres env di ddci s
      exact ⟨hp.1.trans h.1, hp.2.trans h.2⟩

lemma run_stuck (g : GlobalCfg) (env : HwEnv) (es : List Ev) (s : MCState)
    (h : HwStuck s) : HwStuck (run g env es s) := by
  induction es generalizing s with
  | nil => exact h
  | cons e es ih => exact ih (step g env e s) (step_stuck g env e s h)

lemma hwFadeStart_read (env : HwEnv) (s : MCState)
    (h : (s.monitorcontrol_monitor.isSome && env.read_ok) = true) :
    hwFadeStart env s = s.hw_lum := by
  simp [hwFadeStart, hwReadCurrent, h]

lemma hwFadeStart_noread (env : HwEnv) (s : MCState) (ob : Int)
    (h : (s.monitorcontrol_monitor.isSome && env.read_ok) = false)
    (hob : s.original_brightness = some ob) :
    hwFadeStart env s = ob := by
  simp [hwFadeStart, hwReadCurrent, h, hob]

lemma hwFadeStart_default (env : HwEnv) (s : MCState)
    (h : (s.monitorcontrol_monitor.isSome && env.read_ok) = false)
    (hob : s.original_brightness = none) :
    hwFadeStart env s = 100 := by
  simp [hwFadeStart, hwReadCurrent, h, hob]

lemma hwFadeStart_congr (env : HwEnv) (s s' : MCState)
    (hm : s'.monitorcontrol_monitor = s.monitorcontrol_monitor)
    (hb : s'.original_brightness = s.original_brightness)
    (hl : s'.hw_lum = s.hw_lum) :
    hwFadeStart env s' = hwFadeStart env s := by
  unfold hwFadeStart hwReadCurrent
  rw [hm, hb, hl]

lemma fade_hardware_down_fields (g : GlobalCfg) (env : HwEnv) (s : MCState)
    (h : s.restore_in_progress = false) :
    (fade_hardware g env true s).fade_start = hwFadeStart env s ∧
    (fade_hardware g env true s).fade_target = hwFadeTargetDown s.cfg (hwFadeStart env s) := by
  simp only [fade_hardware]
  rw [if_neg (by rw [h]; exact Bool.false_ne_true)]
  exact ⟨rfl, by simp⟩

lemma dim_hw_fields (g : GlobalCfg) (env : HwEnv) (s : MCState)
    (hd : s.is_dimmed = false) (hen : s.cfg.enable_hardware_dimming = true)
    (hob : s.original_brightness.isSome = true) (hrip : s.restore_in_progress = false) :
    (dim g env s).fade_start = hwFadeStart env s ∧
    (dim g env s).fade_target = hwFadeTargetDown s.cfg (hwFadeStart env s) := by
  simp only [dim]
  rw [if_neg (by rw [hd]; exact Bool.false_ne_true)]
  split_ifs with hsw hhw hhw
  · have hcore := fade_overlay_core g (dimOverlayTarget s.cfg)
      ({ s with is_dimmed := true, overlay_visible := true } : MCState)
    have hX := fade_hardware_down_fields g env
      (fade_overlay g (dimOverlayTarget s.cfg)
        ({ s with is_dimmed := true, overlay_visible := true } : MCState))
      (by rw [hcore.rip]; exact hrip)
    have hstart := hwFadeStart_congr env s
      (fade_overlay g (dimOverlayTarget s.cfg)
        ({ s with is_dimmed := true, overlay_visible := true } : MCState))
      hcore.mon hcore.ob hcore.lum
    refine ⟨hX.1.trans hstart, ?_⟩
    rw [hX.2, hstart, hcore.cfg]
  · exact absurd ⟨by rw [(fade_overlay_core _ _ _).cfg]; exact hen,
      by rw [(fade_overlay_core _ _ _).ob]; exact hob⟩ hhw
  · exact fade_hardware_down_fields g env ({ s with is_dimmed := true } : MCState) hrip
  · exact absurd ⟨hen, hob⟩ hhw

lemma hwFadeTargetDown_eq (cfg : MonitorCfg) (start : Int)
    (h5 : 0 ≤ cfg.hardware_dimming_level) (h6 : cfg.hardware_dimming_level ≤ 100) :
    hwFadeTargetDown cfg start =
      max 0 (min 100 (pyRound ((start : Rat) * (1 - (cfg.hardware_dimming_level : Rat) / 100)))) := by
  unfold hwFadeTargetDown
  rw [min_eq_right h6, max_eq_right h5]

lemma dim_sw_only (g : GlobalCfg) (env : HwEnv) (s : MCState)
    (h1 : s.is_dimmed = false) (h2 : s.cfg.enable_software_dimming = true)
    (h3 : s.original_brightness = none) :
    dim g env s = fade_overlay g (dimOverlayTarget s.cfg) (dimmedShown s) := by
  simp only [dim]
  rw [if_neg (by rw [h1]; exact Bool.false_ne_true), if_pos h2]
  split_ifs with hc
  · exfalso
    have h' := hc.2
    rw [(fade_overlay_core _ _ _).ob] at h'
    simp [h3] at h'
  · rfl

/- ------------------------------------------------------------------ -/
/- Claim theorems.                                                     -/
/- ------------------------------------------------------------------ -/

/-- C3: with awake_mode true, a check_inactivity tick never dims the
    monitor regardless of idle time — the resulting state has is_dimmed
    false and no new overlay fade step scheduled — and when the monitor is
    currently dimmed the tick is exactly restore_dim (back to Active),
    while an undimmed monitor is left untouched. -/
theorem C3_awake_mode_gate (g : GlobalCfg) (env : HwEnv) (a : Bool) (now : Rat)
    (s : MCState) (h : g.awake_mode = true) :
    (check_inactivity g env a now s).is_dimmed = false ∧
    (check_inactivity g env a now s).pendingOverlay = s.pendingOverlay ∧
    (s.is_dimmed = true → check_inactivity g env a now s = restore_dim s) ∧
    (s.is_dimmed = false → check_inactivity g env a now s = s) := by
  simp only [check_inactivity]
  rw [if_pos h]
  by_cases hd : s.is_dimmed = true
  · rw [if_pos hd]
    exact ⟨(restore_dim_basic s).1, (restore_dim_basic s).2.2.2.2.2, fun _ => rfl,
      fun hc => absurd hd (by rw [hc]; exact Bool.false_ne_true)⟩
  · rw [if_neg hd]
    have hd' : s.is_dimmed = false := by
      cases hb : s.is_dimmed
      · rfl
      · exact absurd hb hd
    exact ⟨hd', rfl, fun hc => absurd hc hd, fun _ => rfl⟩

/-- Witness for C3 at a concrete awake-mode configuration and fresh
    controller. -/
theorem C3_awake_mode_gate_witness :
    (check_inactivity { gTwo with awake_mode := true } envNone false 1000 sSW).is_dimmed = false ∧
    check_inactivity { gTwo with awake_mode := true } envNone false 1000 sSW = sSW := by
  have h := C3_awake_mode_gate { gTwo with awake_mode := true } envNone false 1000 sSW rfl
  exact ⟨h.1, h.2.2.2 (by with_unfolding_all decide)⟩

/-- C4: dim() is idempotent: when the controller is already dimmed, dim()
    returns the state unchanged (no new fade on either channel), so
    dimming twice equals dimming once. -/
theorem C4_dim_idempotent (g : GlobalCfg) (env : HwEnv) (s : MCState) :
    (s.is_dimmed = true → dim g env s = s) ∧
    dim g env (dim g env s) = dim g env s :=
  ⟨fun h => dim_of_dimmed g env s h,
   dim_of_dimmed g env (dim g env s) (dim_dimmed g env s)⟩

/-- Witness for C4 at a concrete dimmed controller. -/
theorem C4_dim_idempotent_witness :
    (dim gTwo envNone sSW).is_dimmed = true ∧
    dim gTwo envNone (dim gTwo envNone sSW) = dim gTwo envNone sSW :=
  ⟨by with_unfolding_all decide, (C4_dim_idempotent gTwo envNone (dim gTwo envNone sSW)).1 (by with_unfolding_all decide)⟩

/-- C6: the hardware fade started on sHW has fade_start = 100,
    fade_target = 0, fade_steps = 10 (duration 1.0 s); it emits exactly 10
    brightness values, strictly monotonically decreasing, whose 10th value
    is exactly 0, after which the fade timer is stopped. -/
theorem C6_fade_convergence :
    sFade.fade_start = 100 ∧ sFade.fade_target = 0 ∧ sFade.fade_steps = 10 ∧
    fadeEmits 20 sFade = ([90, 80, 70, 60, 50, 40, 30, 20, 10, 0] : List Int) ∧
    (fadeEmits 20 sFade).length = 10 ∧
    List.Pairwise (fun a b => b < a) (fadeEmits 20 sFade) ∧
    (fadeEmits 20 sFade).getLast? = some 0 ∧
    ((List.range 10).foldl (fun st _ => do_fade st) sFade).fade_timer_active = false := by
  have h4 : fadeEmits 20 sFade = ([90, 80, 70, 60, 50, 40, 30, 20, 10, 0] : List Int) := by
    with_unfolding_all decide
  refine ⟨?_, ?_, ?_, h4, ?_, ?_, ?_, ?_⟩
  · with_unfolding_all decide
  · with_unfolding_all decide
  · with_unfolding_all decide
  · rw [h4]; rfl
  · rw [h4]; decide
  · rw [h4]; decide
  · with_unfolding_all decide

/-- C9: fade_hardware is a no-op whenever restore_in_progress is true;
    immediate_restore stops the fade timer without clearing
    restore_in_progress; hence once a hardware fade is interrupted by a
    restore, fade_hardware remains a no-op after any sequence of later
    events (restore_in_progress is only cleared by a completing _do_fade,
    which never runs again). -/
theorem C9_hw_fade_wedged (g : GlobalCfg) (env : HwEnv) (s : MCState)
    (h : s.restore_in_progress = true) :
    (∀ down, fade_hardware g env down s = s) ∧
    (immediate_restore s).restore_in_progress = true ∧
    (immediate_restore s).fade_timer_active = false ∧
    (∀ es down, fade_hardware g env down (run g env es (immediate_restore s)) =
      run g env es (immediate_restore s)) := by
  have hb := immediate_restore_basic s
  refine ⟨fun down => fade_hardware_of_rip g env down s h,
    hb.2.2.2.2.1.trans h, hb.2.2.2.1, ?_⟩
  intro es down
  have hst : HwStuck (run g env es (immediate_restore s)) :=
    run_stuck g env es (immediate_restore s) ⟨hb.2.2.2.2.1.trans h, hb.2.2.2.1⟩
  exact fade_hardware_of_rip g env down _ hst.1

set_option maxRecDepth 8000 in
/-- Witness for C9 on the concrete in-flight hardware fade sFade. -/
theorem C9_hw_fade_wedged_witness :
    sFade.restore_in_progress = true ∧
    fade_hardware gTen envOne true sFade = sFade ∧
    (immediate_restore sFade).fade_timer_active = false ∧
    fade_hardware gTen envOne true
        (run gTen envOne [Ev.callDim] (immediate_restore sFade)) =
      run gTen envOne [Ev.callDim] (immediate_restore sFade) := by
  have h := C9_hw_fade_wedged gTen envOne sFade (by with_unfolding_all decide)
  exact ⟨by with_unfolding_all decide, h.1 true, h.2.2.1, h.2.2.2 [Ev.callDim] true⟩

/-- C10: set_indices clamps negative indices up to 0 — a negative ddc
    index binds the controller to enumeration slot 0 and re-probes its
    baseline brightness whenever any monitor is enumerated — while a
    clamped index at or beyond the enumeration length leaves the DDC
    monitor and baseline unset; set_indices is a total function (never
    raises). -/
theorem C10_set_indices_clamp (env : HwEnv) (s : MCState) (di ddci : Int) :
    (set_indices env di ddci s).display_index = max 0 di ∧
    (set_indices env di ddci s).ddc_index = max 0 ddci ∧
    (ddci < 0 → (set_indices env di ddci s).ddc_index = 0) ∧
    (ddci < 0 → 0 < env.numMonitors →
      (set_indices env di ddci s).monitorcontrol_monitor = some 0 ∧
      (set_indices env di ddci s).original_brightness = env.lum 0) ∧
    ((env.numMonitors : Int) ≤ max 0 ddci →
      (set_indices env di ddci s).monitorcontrol_monitor = none ∧
      (set_indices env di ddci s).original_brightness = none) := by
  refine ⟨?_, ?_, ?_, ?_, ?_⟩
  · simp only [set_indices]
    split_ifs <;> rfl
  · simp only [set_indices]
    split_ifs <;> rfl
  · intro hneg
    simp only [set_indices]
    split_ifs <;> exact max_eq_left hneg.le
  · intro hneg hpos
    have hdd : max 0 ddci = 0 := max_eq_left hneg.le
    simp only [set_indices]
    rw [if_pos ⟨le_max_left 0 ddci, by rw [hdd]; exact_mod_cast hpos⟩]
    constructor <;> simp [hdd]
  · intro hge
    simp only [set_indices]
    rw [if_neg (fun hc => absurd hc.2 (not_lt.mpr hge))]
    exact ⟨rfl, rfl⟩

/-- Witness for C10 at concrete negative and out-of-range indices. -/
theorem C10_set_indices_clamp_witness :
    (set_indices envOne (-1) (-1) sSW).ddc_index = 0 ∧
    (set_indices envOne (-1) (-1) sSW).monitorcontrol_monitor = some 0 ∧
    (set_indices envOne (-1) (-1) sSW).original_brightness = some 100 ∧
    (set_indices envOne 0 99 sSW).monitorcontrol_monitor = none ∧
    (set_indices envOne 0 99 sSW).original_brightness = none := by
  have h1 := C10_set_indices_clamp envOne sSW (-1) (-1)
  have h2 := C10_set_indices_clamp envOne sSW 0 99
  exact ⟨h1.2.2.1 (by with_unfolding_all decide), (h1.2.2.2.1 (by with_unfolding_all decide) (by with_unfolding_all decide)).1,
    (h1.2.2.2.1 (by with_unfolding_all decide) (by with_unfolding_all decide)).2.trans rfl,
    (h2.2.2.2.2 (by with_unfolding_all decide)).1, (h2.2.2.2.2 (by with_unfolding_all decide)).2⟩

set_option maxRecDepth 8000 in
/-- C1 is false as stated: on the software-only scenario, dim() starts an
    overlay fade (one step applied, one pending), restore_dim() runs before
    it completes and snaps opacity to 0, but the pending singleShot of the
    interrupted fade is not cancelled: when it fires the system reaches its
    steady state (no pending step, no fade timer) with overlay opacity 1/2
    — the interrupted fade's target — not 0. -/
theorem C1_restore_priority_counterexample :
    (restore_dim (dim gTwo envNone sSW)).overlay_opacity = 0 ∧
    (restore_dim (dim gTwo envNone sSW)).pendingOverlay ≠ [] ∧
    (fireOverlay 0 (restore_dim (dim gTwo envNone sSW))).pendingOverlay = [] ∧
    (fireOverlay 0 (restore_dim (dim gTwo envNone sSW))).fade_timer_active = false ∧
    (fireOverlay 0 (restore_dim (dim gTwo envNone sSW))).is_dimmed = false ∧
    (fireOverlay 0 (restore_dim (dim gTwo envNone sSW))).overlay_opacity = 1/2 ∧
    ¬ (fireOverlay 0 (restore_dim (dim gTwo envNone sSW))).overlay_opacity = 0 := by
  refine ⟨?_, ?_, ?_, ?_, ?_, ?_, ?_⟩ <;> with_unfolding_all decide

/-- C1 (amended): restore_dim always yields is_dimmed false, the overlay
    hidden with opacity snapped to 0, the hardware fade timer stopped and
    (with the hardware channel bound and a known baseline) brightness set
    back to original_brightness; firing any pending steps of an interrupted
    overlay fade afterwards never changes is_dimmed, the overlay
    visibility, the hardware brightness or the fade timer — but those
    pending steps are not cancelled and keep driving the stored overlay
    opacity. -/
theorem C1_restore_priority_amended (s : MCState) (ob : Int)
    (hm : s.monitorcontrol_monitor.isSome = true)
    (hb : s.original_brightness = some ob) (l : List Nat) :
    (restore_dim s).is_dimmed = false ∧
    (restore_dim s).overlay_visible = false ∧
    (restore_dim s).overlay_opacity = 0 ∧
    (restore_dim s).fade_timer_active = false ∧
    (restore_dim s).hw_lum = ob ∧
    (runFires l (restore_dim s)).is_dimmed = false ∧
    (runFires l (restore_dim s)).overlay_visible = false ∧
    (runFires l (restore_dim s)).hw_lum = ob ∧
    (runFires l (restore_dim s)).fade_timer_active = false := by
  have hb0 := restore_dim_basic s
  have hl := restore_dim_lum s ob hm hb
  have hc := runFires_core l (restore_dim s)
  exact ⟨hb0.1, hb0.2.1, hb0.2.2.1, hb0.2.2.2.1, hl,
    hc.dimmed.trans hb0.1, runFires_hidden l _ hb0.2.1,
    hc.lum.trans hl, hc.timer.trans hb0.2.2.2.1⟩

set_option maxRecDepth 8000 in
/-- Witness for the amended C1 on a dual-channel dim interrupted by
    restore_dim, with the one pending overlay step fired afterwards. -/
theorem C1_restore_priority_amended_witness :
    (restore_dim (dim gTwo envOne sBoth)).hw_lum = 100 ∧
    (restore_dim (dim gTwo envOne sBoth)).overlay_opacity = 0 ∧
    (restore_dim (dim gTwo envOne sBoth)).fade_timer_active = false ∧
    (runFires [0] (restore_dim (dim gTwo envOne sBoth))).is_dimmed = false ∧
    (runFires [0] (restore_dim (dim gTwo envOne sBoth))).overlay_visible = false ∧
    (runFires [0] (restore_dim (dim gTwo envOne sBoth))).hw_lum = 100 := by
  have h := C1_restore_priority_amended (dim gTwo envOne sBoth) 100
    (by with_unfolding_all decide) (by with_unfolding_all decide) [0]
  exact ⟨h.2.2.2.2.1, h.2.2.1, h.2.2.2.1, h.2.2.2.2.2.1,
    h.2.2.2.2.2.2.1, h.2.2.2.2.2.2.2.1⟩

set_option maxRecDepth 8000 in
/-- C2 is false as stated: after dim() starts an overlay fade to 0.5, an
    identify() flash starts a second overlay fade to 0.9 on the same
    channel; the first fade's pending step is still scheduled (two pending
    steps, with the two distinct targets), and firing it drives the overlay
    opacity from 23/40 back down to 1/2 — two fade sequences drive the
    same channel. -/
theorem C2_fade_cancellation_counterexample :
    (dim gTwo envNone sSW).pendingOverlay.length = 1 ∧
    (identifyFade gTwo (9/10) (dim gTwo envNone sSW)).pendingOverlay.length = 2 ∧
    (identifyFade gTwo (9/10) (dim gTwo envNone sSW)).pendingOverlay.map
      (fun st => st.target) = [1/2, 9/10] ∧
    (identifyFade gTwo (9/10) (dim gTwo envNone sSW)).overlay_opacity = 23/40 ∧
    (fireOverlay 0 (identifyFade gTwo (9/10) (dim gTwo envNone sSW))).overlay_opacity = 1/2 := by
  refine ⟨?_, ?_, ?_, ?_, ?_⟩ <;> with_unfolding_all decide

/-- C2 (amended): on the hardware channel two fades never run concurrently,
    but not by cancellation — a fade_hardware call while a fade is in
    flight (restore_in_progress true) is dropped as a no-op and the old
    fade keeps running; on the overlay channel starting a new fade cancels
    nothing: every previously scheduled overlay step is still pending
    afterwards, so several fade chains can drive the overlay
    concurrently. -/
theorem C2_fade_cancellation_amended (g g2 : GlobalCfg) (env : HwEnv) (down : Bool)
    (t : Rat) (s s2 : MCState) (h : s.restore_in_progress = true)
    (os : OverlayStep) (hos : os ∈ s2.pendingOverlay) :
    fade_hardware g env down s = s ∧ os ∈ (fade_overlay g2 t s2).pendingOverlay :=
  ⟨fade_hardware_of_rip g env down s h, fade_overlay_pending_mono g2 t s2 os hos⟩

set_option maxRecDepth 8000 in
/-- Witness for the amended C2: the in-flight hardware fade sFade rejects a
    new fade, and the dim-started overlay step survives a new overlay
    fade. -/
theorem C2_fade_cancellation_amended_witness :
    fade_hardware gTen envOne true sFade = sFade ∧
    (⟨1/4, 1/2, 1/4, 500⟩ : OverlayStep) ∈
      (fade_overlay gTwo (9/10) (dim gTwo envNone sSW)).pendingOverlay := by
  have hp : (dim gTwo envNone sSW).pendingOverlay =
      [⟨1/4, 1/2, 1/4, 500⟩] := by with_unfolding_all decide
  have hmem : (⟨1/4, 1/2, 1/4, 500⟩ : OverlayStep) ∈ (dim gTwo envNone sSW).pendingOverlay := by
    rw [hp]; exact List.mem_singleton.mpr rfl
  have h := C2_fade_cancellation_amended gTen gTwo envOne true (9/10) sFade
    (dim gTwo envNone sSW) (by with_unfolding_all decide) ⟨1/4, 1/2, 1/4, 500⟩ hmem
  exact ⟨h.1, h.2⟩

/-- C5: with ddc_index 99 and only 2 DDC monitors enumerated, the hardware
    channel is disabled (no DDC monitor bound, no baseline brightness), the
    (total) initialization and dim never fail, and dim is exactly the
    software overlay fade — overlay shown, no hardware fade timer started,
    hardware luminance untouched. -/
theorem C5_index_safety (cfg : MonitorCfg) (g : GlobalCfg) (env : HwEnv)
    (now : Rat) (hwLum : Int)
    (h1 : cfg.ddc_index = 99) (h2 : env.numMonitors = 2)
    (h3 : cfg.enable_software_dimming = true) :
    (mkController cfg env now hwLum).monitorcontrol_monitor = none ∧
    (mkController cfg env now hwLum).original_brightness = none ∧
    (dim g env (mkController cfg env now hwLum)).is_dimmed = true ∧
    dim g env (mkController cfg env now hwLum) =
      fade_overlay g (dimOverlayTarget cfg) (dimmedShown (mkController cfg env now hwLum)) ∧
    (dim g env (mkController cfg env now hwLum)).fade_timer_active = false ∧
    (dim g env (mkController cfg env now hwLum)).hw_lum = hwLum := by
  have hcond : ¬(0 ≤ (initState cfg now hwLum).ddc_index ∧
      (initState cfg now hwLum).ddc_index < (env.numMonitors : Int)) := by
    simp only [initState, h1, h2]
    intro hc
    omega
  have hmk : mkController cfg env now hwLum =
      { initState cfg now hwLum with monitorcontrol_monitor := none } := by
    simp only [mkController, init_monitor]
    rw [if_neg hcond]
  have hM : (mkController cfg env now hwLum).monitorcontrol_monitor = none := by
    rw [hmk]
  have hO : (mkController cfg env now hwLum).original_brightness = none := by
    rw [hmk]; rfl
  have hd0 : (mkController cfg env now hwLum).is_dimmed = false := by
    rw [hmk]; rfl
  have hcfg : (mkController cfg env now hwLum).cfg = cfg := by
    rw [hmk]; rfl
  have heq := dim_sw_only g env (mkController cfg env now hwLum) hd0
    (by rw [hcfg]; exact h3) hO
  rw [hcfg] at heq
  have hcore := fade_overlay_core g (dimOverlayTarget cfg)
    (dimmedShown (mkController cfg env now hwLum))
  refine ⟨hM, hO, dim_dimmed g env _, heq, ?_, ?_⟩
  · rw [heq, hcore.timer, hmk]; rfl
  · rw [heq, hcore.lum, hmk]; rfl

/-- Witness for C5 at a concrete out-of-range configuration. -/
theorem C5_index_safety_witness :
    (mkController { swCfg with ddc_index := 99 } env2 0 100).monitorcontrol_monitor = none ∧
    (mkController { swCfg with ddc_index := 99 } env2 0 100).original_brightness = none ∧
    (dim gTwo env2 (mkController { swCfg with ddc_index := 99 } env2 0 100)).is_dimmed = true ∧
    (dim gTwo env2 (mkController { swCfg with ddc_index := 99 } env2 0 100)).fade_timer_active = false := by
  have h := C5_index_safety { swCfg with ddc_index := 99 } gTwo env2 0 100 rfl rfl rfl
  exact ⟨h.1, h.2.1, h.2.2.1, h.2.2.2.2.1⟩

/-- C7: when dim() starts the hardware fade, the fade start is the current
    luminance when readable, else the known original_brightness (and in
    general fade_hardware falls back to 100 when no baseline is known),
    and the fade target is round(start * (1 - level/100)) clamped to
    [0,100]; for hardware_dimming_level 30 the factor is 7/10, and for
    software_dimming_level 0.5 the overlay fade target used by dim() is
    exactly 0.5. -/
theorem C7_fade_targets (g : GlobalCfg) (env : HwEnv) (s : MCState) (ob : Int)
    (hd : s.is_dimmed = false) (hen : s.cfg.enable_hardware_dimming = true)
    (hob : s.original_brightness = some ob) (hrip : s.restore_in_progress = false)
    (h5 : 0 ≤ s.cfg.hardware_dimming_level) (h6 : s.cfg.hardware_dimming_level ≤ 100) :
    (dim g env s).fade_start = hwFadeStart env s ∧
    ((s.monitorcontrol_monitor.isSome && env.read_ok) = true →
      (dim g env s).fade_start = s.hw_lum) ∧
    ((s.monitorcontrol_monitor.isSome && env.read_ok) = false →
      (dim g env s).fade_start = ob) ∧
    (∀ s2 : MCState, s2.original_brightness = none →
      (s2.monitorcontrol_monitor.isSome && env.read_ok) = false →
      hwFadeStart env s2 = 100) ∧
    (dim g env s).fade_target =
      max 0 (min 100 (pyRound ((hwFadeStart env s : Rat) *
        (1 - (s.cfg.hardware_dimming_level : Rat) / 100)))) ∧
    (s.cfg.hardware_dimming_level = 30 →
      (dim g env s).fade_target =
        max 0 (min 100 (pyRound ((hwFadeStart env s : Rat) * (7/10))))) ∧
    (s.cfg.software_dimming_level = 1/2 → dimOverlayTarget s.cfg = 1/2) := by
  have hf := dim_hw_fields g env s hd hen (by rw [hob]; rfl) hrip
  refine ⟨hf.1, fun hr => hf.1.trans (hwFadeStart_read env s hr),
    fun hr => hf.1.trans (hwFadeStart_noread env s ob hr hob),
    fun s2 hb2 hr2 => hwFadeStart_default env s2 hr2 hb2,
    hf.2.trans (hwFadeTargetDown_eq s.cfg _ h5 h6), ?_, ?_⟩
  · intro h30
    have h710 : (1 - (s.cfg.hardware_dimming_level : Rat) / 100) = 7/10 := by
      rw [h30]; norm_num
    rw [hf.2, hwFadeTargetDown_eq s.cfg _ h5 h6, h710]
  · intro hswl
    unfold dimOverlayTarget
    rw [hswl]
    norm_num

set_option maxRecDepth 8000 in
/-- Witness for C7 on the dual-channel controller at level 30 with
    luminance 100. -/
theorem C7_fade_targets_witness :
    (dim gTwo envOne sBoth).fade_start = 100 ∧
    (dim gTwo envOne sBoth).fade_target = 70 ∧
    dimOverlayTarget sBoth.cfg = 1/2 := by
  have h := C7_fade_targets gTwo envOne sBoth 100 (by with_unfolding_all decide)
    (by with_unfolding_all decide) (by with_unfolding_all decide)
    (by with_unfolding_all decide) (by with_unfolding_all decide)
    (by with_unfolding_all decide)
  exact ⟨(h.2.1 (by with_unfolding_all decide)).trans (by with_unfolding_all decide),
    h.2.2.2.2.1.trans (by with_unfolding_all decide),
    h.2.2.2.2.2.2 (by with_unfolding_all decide)⟩

/-- C8: starting a pause of m ≥ 1 minutes turns awake_mode on and arms a
    single-shot timer expiring m minutes later; with no intervention the
    expiry turns awake_mode off automatically and resets last_active (so
    inactivity tracking resumes); a manual awake-off before expiry turns
    awake_mode off and cancels the pending timer, after which no expiry can
    fire; and a manual awake-off after expiry leaves awake_mode off
    (whichever happens first wins, the other is a no-op on awake_mode and
    the timer). -/
theorem C8_pause_expiry (s : App.AppState) (now : Rat) (m : Int) (hm : 1 ≤ m) :
    (App.pause_dimming now m s).awake_mode = true ∧
    (App.pause_dimming now m s).pauseTimer = some (now + (m : Rat) * 60) ∧
    (App.pause_timeout (now + (m : Rat) * 60) (App.pause_dimming now m s)).awake_mode = false ∧
    (App.pause_timeout (now + (m : Rat) * 60) (App.pause_dimming now m s)).pauseTimer = none ∧
    (App.pause_timeout (now + (m : Rat) * 60)
      (App.pause_dimming now m s)).lastActive = now + (m : Rat) * 60 ∧
    (∀ t : Rat, (App.on_awake_toggled t false (App.pause_dimming now m s)).awake_mode = false ∧
      (App.on_awake_toggled t false (App.pause_dimming now m s)).pauseTimer = none ∧
      App.expiryEnabled t (App.on_awake_toggled t false (App.pause_dimming now m s)) = false) ∧
    (∀ t : Rat,
      (App.on_awake_toggled t false
        (App.pause_timeout (now + (m : Rat) * 60) (App.pause_dimming now m s))).awake_mode = false) := by
  have hmax : ((max 1 m : Int) : Rat) = (m : Rat) := by rw [max_eq_right hm]
  have hawake : (App.pause_dimming now m s).awake_mode = true := by
    simp only [App.pause_dimming, App.on_awake_toggled]
    split_ifs <;> simp_all
  have htimer : (App.pause_dimming now m s).pauseTimer = some (now + (m : Rat) * 60) := by
    simp only [App.pause_dimming]
    rw [hmax]
  have htimeout : ∀ (X : App.AppState) (t : Rat),
      (App.pause_timeout t X).awake_mode = false ∧
      (App.pause_timeout t X).pauseTimer = none ∧
      (App.pause_timeout t X).lastActive = t := by
    intro X t
    simp [App.pause_timeout, App.on_awake_toggled]
  have hmanual : ∀ t : Rat,
      (App.on_awake_toggled t false (App.pause_dimming now m s)).awake_mode = false ∧
      (App.on_awake_toggled t false (App.pause_dimming now m s)).pauseTimer = none := by
    intro t
    constructor <;> simp [App.on_awake_toggled, htimer]
  refine ⟨hawake, htimer, (htimeout _ _).1, (htimeout _ _).2.1, (htimeout _ _).2.2,
    fun t => ⟨(hmanual t).1, (hmanual t).2, ?_⟩, fun t => ?_⟩
  · simp [App.expiryEnabled, (hmanual t).2]
  · simp [App.on_awake_toggled, (htimeout (App.pause_dimming now m s) (now + (m : Rat) * 60)).2.1]

/-- Witness for C8: a 1-minute pause from the idle state, expiring at 60
    seconds, with a manual toggle at 30. -/
theorem C8_pause_expiry_witness :
    (App.pause_dimming 0 1 ⟨false, none, 0⟩).awake_mode = true ∧
    (App.pause_dimming 0 1 ⟨false, none, 0⟩).pauseTimer = some 60 ∧
    (App.pause_timeout (0 + (1 : Rat) * 60)
      (App.pause_dimming 0 1 ⟨false, none, 0⟩)).awake_mode = false ∧
    (App.on_awake_toggled 30 false (App.pause_dimming 0 1 ⟨false, none, 0⟩)).pauseTimer = none := by
  have h := C8_pause_expiry ⟨false, none, 0⟩ 0 1 (by decide)
  refine ⟨h.1, h.2.1.trans (by norm_num), h.2.2.1, (h.2.2.2.2.2.1 30).2.1⟩

end MonitorNap
